import Mathlib

/-!
Verification of the `eventsensor` integration (`custom_components/eventsensor/sensor.py`).

The component is a sensor entity that mirrors the most recent matching event.
We shallowly embed its data model and operations:

* Python `dict`s become association lists (`Dict K V`) with first-match lookup;
  well-formed Python dicts have no duplicate keys, and every statement below is
  phrased through `dlookup` / item membership, which agree with Python dict
  semantics on duplicate-free lists.
* Python values that can appear as dict keys/values are modelled by `PyVal`:
  integers, strings, `None`, and `pobj n` for other host objects (timestamps,
  parsed floats, ...) distinguished by an identifier.  No claim depends on
  float arithmetic, so floats are kept abstract.
* The entity's mutable fields (`_state`, `_attributes`, `_event_listener`)
  form `EntityState`; the immutable configuration parsed in `__init__` forms
  `EventSensor`.
* The `async_update_sensor` callback (sensor.py lines 179-194) becomes a pure
  function from entity state and event to the new entity state plus an
  `UpdateOutcome` recording whether `async_write_ha_state` was called
  (`wrote`), the filter guard failed (`noop`), or the unguarded
  `event.data[self._state_key]` lookup raised `KeyError` (`key_error`).
-/

/-- Python `dict`, modelled as an association list with first-match lookup. -/
abbrev Dict (K V : Type) : Type := List (K × V)

/-- Python `d[k]` / `d.get(k)`: first binding of `k` in the list, if any. -/
def dlookup {K V : Type} [DecidableEq K] (k : K) : Dict K V → Option V
  | [] => none
  | (k', v) :: t => if k' = k then some v else dlookup k t

/-- Overwrite every binding of `k` with `v`, keeping its position, as a Python
dict assignment does for a key that is already present (a well-formed dict has
at most one binding per key). -/
def dreplace {K V : Type} [DecidableEq K] (k : K) (v : V) : Dict K V → Dict K V
  | [] => []
  | (k', v') :: t => if k' = k then (k, v) :: dreplace k v t else (k', v') :: dreplace k v t

/-- Python dict assignment `d[k] = v`: replace the binding in place if the key
is present, otherwise append the new binding at the end. -/
def dinsert {K V : Type} [DecidableEq K] (k : K) (v : V) (d : Dict K V) : Dict K V :=
  if (dlookup k d).isSome then dreplace k v d else d ++ [(k, v)]

/-- Python `d1.items() <= d2.items()`: every key/value pair of `d1` occurs in
`d2` (item-set inclusion). -/
def ditems_subb {K V : Type} [DecidableEq K] [DecidableEq V] (d1 d2 : Dict K V) : Bool :=
  d1.all (fun p => decide (p ∈ d2))

/-- Python `d1.items() < d2.items()` (sensor.py line 182): item sets of dicts
compare as sets, and `<` is PROPER subset, i.e. inclusion holds one way and
fails the other. -/
def ditems_ltb {K V : Type} [DecidableEq K] [DecidableEq V] (d1 d2 : Dict K V) : Bool :=
  ditems_subb d1 d2 && !(ditems_subb d2 d1)

/-- Values a Python dict key/value can take in this component.  `pobj n`
stands for any other host object (datetime, parsed float, ...), distinguished
by an identifier so that equality is meaningful. -/
inductive PyVal : Type where
  | pint : Int → PyVal
  | pstr : String → PyVal
  | pnone : PyVal
  | pobj : Nat → PyVal
deriving DecidableEq, Repr

/-- A host event as delivered to the listener callback: its `data` dict, the
name of its origin (`event.origin.name`, a string) and its fired timestamp
(`event.time_fired`, an opaque host value). -/
structure Event where
  data : Dict PyVal PyVal
  origin_name : String
  time_fired : PyVal
deriving DecidableEq

/-- The immutable sensor configuration stored by `EventSensor.__init__`
(sensor.py lines 121-146): name, event type, raw state key, parsed event-data
filter, parsed state-remap table, and derived unique id. -/
structure EventSensor where
  name : String
  event : String
  state_key : PyVal
  event_data : Dict PyVal PyVal
  state_map : Dict PyVal PyVal
  unique_id : String
deriving DecidableEq

/-- The entity's mutable runtime fields: `_state`, `_attributes` and
`_event_listener` (the latter as an opaque handle id when registered). -/
structure EntityState where
  state : PyVal
  attributes : Dict PyVal PyVal
  event_listener : Option Nat
deriving DecidableEq

/-- `__init__` sets `_state = None`, `_attributes = {}`, `_event_listener = None`. -/
def initial_entity_state : EntityState :=
  { state := .pnone, attributes := [], event_listener := none }

/-- Outcome of one delivery of an event to the update callback: `wrote` means
the guard passed and `async_write_ha_state` ran; `noop` means the guard on
line 182 failed; `key_error` means the guard passed but
`event.data[self._state_key]` (line 183) raised `KeyError`. -/
inductive UpdateOutcome : Type where
  | wrote : UpdateOutcome
  | noop : UpdateOutcome
  | key_error : UpdateOutcome
deriving DecidableEq, Repr

/-- The attributes dict built on lines 188-192:
`{**event.data, "origin": event.origin.name, "time_fired": event.time_fired}`.
The literal copies `event.data` and then assigns the `"origin"` and
`"time_fired"` keys, each assignment overwriting any same-named key. -/
def merged_attributes (ev : Event) : Dict PyVal PyVal :=
  dinsert (.pstr "time_fired") ev.time_fired
    (dinsert (.pstr "origin") (.pstr ev.origin_name) ev.data)

/-- The `async_update_sensor` callback (sensor.py lines 179-194) as a pure
function.  If the filter guard `self._event_data.items() < event.data.items()`
fails, nothing happens.  Otherwise the state value is extracted at
`self._state_key` (raising `KeyError` when absent, before any field is
mutated), remapped through `self._state_map` when it is one of its keys, and
the entity's state and attributes are overwritten. -/
def async_update_sensor (s : EventSensor) (st : EntityState) (ev : Event) :
    EntityState × UpdateOutcome :=
  if ditems_ltb s.event_data ev.data then
    match dlookup s.state_key ev.data with
    | none => (st, .key_error)
    | some v =>
        let new_state := match dlookup v s.state_map with
          | some m => m
          | none => v
        ({ st with state := new_state, attributes := merged_attributes ev }, .wrote)
  else (st, .noop)

/-- `async_added_to_hass` (sensor.py lines 171-199): restore the last host
state when one exists (`self._state = last_state.state`,
`self._attributes = dict(last_state.attributes)`), then register the event
listener, storing the handle returned by `hass.bus.async_listen`. -/
def async_added_to_hass (st : EntityState)
    (last_state : Option (PyVal × Dict PyVal PyVal)) (handle : Nat) : EntityState :=
  let st1 := match last_state with
    | some ls => { st with state := ls.1, attributes := ls.2 }
    | none => st
  { st1 with event_listener := some handle }

/-- `async_will_remove_from_hass` (sensor.py lines 207-212): when a listener
handle is stored, call it (deregistering the bus callback) and clear the
field.  The boolean records whether the deregistration callable was invoked. -/
def async_will_remove_from_hass (st : EntityState) : EntityState × Bool :=
  match st.event_listener with
  | some _ => ({ st with event_listener := none }, true)
  | none => (st, false)

/-! ### Lemmas about the dict model -/

theorem ditems_subb_iff {K V : Type} [DecidableEq K] [DecidableEq V] (d1 d2 : Dict K V) :
    ditems_subb d1 d2 = true ↔ ∀ p ∈ d1, p ∈ d2 := by
  simp [ditems_subb, List.all_eq_true]

theorem ditems_ltb_iff {K V : Type} [DecidableEq K] [DecidableEq V] (d1 d2 : Dict K V) :
    ditems_ltb d1 d2 = true ↔ ((∀ p ∈ d1, p ∈ d2) ∧ ¬ (∀ p ∈ d2, p ∈ d1)) := by
  rw [ditems_ltb, Bool.and_eq_true, ditems_subb_iff]
  constructor
  · rintro ⟨h1, h2⟩
    refine ⟨h1, fun hc => ?_⟩
    rw [(ditems_subb_iff d2 d1).2 hc] at h2
    simp at h2
  · rintro ⟨h1, h2⟩
    refine ⟨h1, ?_⟩
    cases hb : ditems_subb d2 d1 with
    | false => rfl
    | true => exact absurd ((ditems_subb_iff d2 d1).1 hb) h2

theorem dlookup_dreplace_self {K V : Type} [DecidableEq K] (k : K) (v : V) (d : Dict K V) :
    dlookup k (dreplace k v d) = if (dlookup k d).isSome then some v else none := by
  induction d with
  | nil => simp [dreplace, dlookup]
  | cons p t ih =>
      obtain ⟨a, b⟩ := p
      by_cases h : a = k
      · simp [dreplace, dlookup, h]
      · simp [dreplace, dlookup, h, ih]

theorem dlookup_dreplace_ne {K V : Type} [DecidableEq K] (k k' : K) (v : V) (d : Dict K V)
    (hne : k' ≠ k) : dlookup k' (dreplace k v d) = dlookup k' d := by
  induction d with
  | nil => simp [dreplace, dlookup]
  | cons p t ih =>
      obtain ⟨a, b⟩ := p
      by_cases h : a = k
      · subst h
        simp [dreplace, dlookup, Ne.symm hne, ih]
      · simp [dreplace, dlookup, h, ih]

theorem dlookup_append {K V : Type} [DecidableEq K] (k : K) (d1 d2 : Dict K V) :
    dlookup k (d1 ++ d2) =
      match dlookup k d1 with
      | some v => some v
      | none => dlookup k d2 := by
  induction d1 with
  | nil => simp [dlookup]
  | cons p t ih =>
      obtain ⟨a, b⟩ := p
      by_cases h : a = k
      · simp [dlookup, h]
      · simp [dlookup, h, ih]

/-- Lookup after a dict assignment: the assigned key now maps to the new
value, every other key is untouched. -/
theorem dlookup_dinsert {K V : Type} [DecidableEq K] (k k' : K) (v : V) (d : Dict K V) :
    dlookup k' (dinsert k v d) = if k' = k then some v else dlookup k' d := by
  by_cases hs : (dlookup k d).isSome
  · by_cases he : k' = k
    · subst he
      simp [dinsert, hs, dlookup_dreplace_self]
    · simp [dinsert, hs, dlookup_dreplace_ne k k' v d he, he]
  · have hnone : dlookup k d = none := by
      cases h : dlookup k d with
      | none => rfl
      | some w => rw [h] at hs; simp at hs
    by_cases he : k' = k
    · subst he
      simp [dinsert, hs, dlookup_append, hnone, dlookup]
    · simp only [dinsert]
      rw [if_neg hs, dlookup_append]
      cases h : dlookup k' d with
      | some w => simp [he]
      | none => simp [dlookup, Ne.symm he, he]

/-- Lookup in the merged attributes dict of lines 188-192. -/
theorem dlookup_merged_attributes (ev : Event) (k : PyVal) :
    dlookup k (merged_attributes ev) =
      if k = .pstr "time_fired" then some ev.time_fired
      else if k = .pstr "origin" then some (.pstr ev.origin_name)
      else dlookup k ev.data := by
  by_cases h1 : k = PyVal.pstr "time_fired"
  · simp [merged_attributes, dlookup_dinsert, h1]
  · by_cases h2 : k = PyVal.pstr "origin"
    · simp [merged_attributes, dlookup_dinsert, h1, h2]
    · simp [merged_attributes, dlookup_dinsert, h1, h2]

/-- The callback leaves everything alone exactly when the guard on line 182
fails; `noop` cannot co-occur with a passing guard. -/
theorem update_outcome_noop_iff (s : EventSensor) (st : EntityState) (ev : Event) :
    (async_update_sensor s st ev).2 = .noop ↔ ditems_ltb s.event_data ev.data = false := by
  by_cases h : ditems_ltb s.event_data ev.data
  · cases hk : dlookup s.state_key ev.data with
    | none => simp [async_update_sensor, h, hk]
    | some v => simp [async_update_sensor, h, hk]
  · simp [async_update_sensor, h]

/-! ### Claim C1: acceptance condition of the update callback -/

/-- Claim C1 (counterexample): with filter `{"a": 1}` and an event whose data
is exactly `{"a": 1}`, every filter pair is present and equal in the event
data and the state key `"a"` is present, so the claim predicts acceptance —
but `async_update_sensor` rejects the event (`noop`) and changes nothing,
because line 182 uses the strict comparison
`self._event_data.items() < event.data.items()`. -/
theorem c1_subset_acceptance_counterexample :
    (∀ p ∈ ([(PyVal.pstr "a", PyVal.pint 1)] : Dict PyVal PyVal),
        p ∈ ([(PyVal.pstr "a", PyVal.pint 1)] : Dict PyVal PyVal)) ∧
    dlookup (PyVal.pstr "a") ([(PyVal.pstr "a", PyVal.pint 1)] : Dict PyVal PyVal) =
      some (PyVal.pint 1) ∧
    async_update_sensor
        { name := "s", event := "e", state_key := PyVal.pstr "a",
          event_data := [(PyVal.pstr "a", PyVal.pint 1)], state_map := [], unique_id := "u" }
        initial_entity_state
        { data := [(PyVal.pstr "a", PyVal.pint 1)], origin_name := "LOCAL",
          time_fired := PyVal.pobj 0 } =
      (initial_entity_state, UpdateOutcome.noop) := by
  refine ⟨by decide, by decide, by decide⟩

/-- Claim C1 (amended): the update callback accepts an event if and only if
the configured filter's item set is a PROPER subset of the event data's item
set: every filter key/value pair is present and equal in the event data AND
the event data holds at least one pair outside the filter.  In particular an
event whose data is exactly equal to the filter is rejected. -/
theorem c1_amended_accept_iff_proper_subset (s : EventSensor) (st : EntityState) (ev : Event) :
    (async_update_sensor s st ev).2 ≠ UpdateOutcome.noop ↔
      ((∀ p ∈ s.event_data, p ∈ ev.data) ∧ ¬ (∀ p ∈ ev.data, p ∈ s.event_data)) := by
  rw [← ditems_ltb_iff]
  constructor
  · intro h
    cases hb : ditems_ltb s.event_data ev.data with
    | true => rfl
    | false => exact absurd ((update_outcome_noop_iff s st ev).2 hb) h
  · intro h hc
    rw [(update_outcome_noop_iff s st ev).1 hc] at h
    exact Bool.false_ne_true h

/-! ### Claim C2: derived state on accepted events -/

/-- Claim C2 (counterexample): event data exactly equal to the filter is a
superset of it, and the state key `"a"` is present with raw value `1` that is
not remapped, so the claim predicts the state becomes `1` — but the callback
leaves the state at its initial `None`, because the guard on line 182 requires
a strict superset. -/
theorem c2_superset_state_counterexample :
    (∀ p ∈ ([(PyVal.pstr "a", PyVal.pint 1)] : Dict PyVal PyVal),
        p ∈ ([(PyVal.pstr "a", PyVal.pint 1)] : Dict PyVal PyVal)) ∧
    dlookup (PyVal.pstr "a") ([(PyVal.pstr "a", PyVal.pint 1)] : Dict PyVal PyVal) =
      some (PyVal.pint 1) ∧
    dlookup (PyVal.pint 1) ([] : Dict PyVal PyVal) = none ∧
    (async_update_sensor
        { name := "s", event := "e", state_key := PyVal.pstr "a",
          event_data := [(PyVal.pstr "a", PyVal.pint 1)], state_map := [], unique_id := "u" }
        initial_entity_state
        { data := [(PyVal.pstr "a", PyVal.pint 1)], origin_name := "LOCAL",
          time_fired := PyVal.pobj 0 }).1.state = PyVal.pnone ∧
    PyVal.pnone ≠ PyVal.pint 1 := by
  refine ⟨by decide, by decide, by decide, by decide, by decide⟩

/-- Claim C2 (amended): for all event data that is a PROPER superset of the
configured filter and that contains the state key, after the update callback
runs the sensor's state equals the remapped value when the extracted value is
a key of the remap table, and otherwise equals the raw extracted value (and
the new state is written). -/
theorem c2_amended_state_derivation (s : EventSensor) (st : EntityState) (ev : Event) (v : PyVal)
    (hsub : ∀ p ∈ s.event_data, p ∈ ev.data)
    (hproper : ¬ (∀ p ∈ ev.data, p ∈ s.event_data))
    (hkey : dlookup s.state_key ev.data = some v) :
    (async_update_sensor s st ev).2 = UpdateOutcome.wrote ∧
    (∀ m, dlookup v s.state_map = some m → (async_update_sensor s st ev).1.state = m) ∧
    (dlookup v s.state_map = none → (async_update_sensor s st ev).1.state = v) := by
  have hltb : ditems_ltb s.event_data ev.data = true := (ditems_ltb_iff _ _).2 ⟨hsub, hproper⟩
  refine ⟨by simp [async_update_sensor, hltb, hkey], ?_, ?_⟩
  · intro m hm
    simp [async_update_sensor, hltb, hkey, hm]
  · intro hm
    simp [async_update_sensor, hltb, hkey, hm]

/-- Witness for C2 (amended): filter `{}`, event data `{"a": 2}`, remap table
`{2: "on"}`: the state becomes the remapped value `"on"`. -/
theorem c2_amended_state_derivation_witness :
    (async_update_sensor
        { name := "s", event := "e", state_key := PyVal.pstr "a",
          event_data := [], state_map := [(PyVal.pint 2, PyVal.pstr "on")], unique_id := "u" }
        initial_entity_state
        { data := [(PyVal.pstr "a", PyVal.pint 2)], origin_name := "LOCAL",
          time_fired := PyVal.pobj 0 }).1.state = PyVal.pstr "on" := by
  have h := c2_amended_state_derivation
    { name := "s", event := "e", state_key := PyVal.pstr "a",
      event_data := [], state_map := [(PyVal.pint 2, PyVal.pstr "on")], unique_id := "u" }
    initial_entity_state
    { data := [(PyVal.pstr "a", PyVal.pint 2)], origin_name := "LOCAL",
      time_fired := PyVal.pobj 0 }
    (PyVal.pint 2) (by decide) (by decide) (by decide)
  exact h.2.1 (PyVal.pstr "on") (by decide)

/-! ### Claim C3: non-matching events change nothing -/

/-- Claim C3 (confirmed): when the event data does not satisfy the configured
filter (some filter key/value pair is absent or unequal in the event data),
the update callback returns the entity state unchanged — same state, same
attributes, same listener — and does not write a new host state (`noop`). -/
theorem c3_non_matching_event_is_noop (s : EventSensor) (st : EntityState) (ev : Event)
    (h : ¬ (∀ p ∈ s.event_data, p ∈ ev.data)) :
    async_update_sensor s st ev = (st, UpdateOutcome.noop) := by
  have hsub : ditems_subb s.event_data ev.data = false := by
    cases hb : ditems_subb s.event_data ev.data with
    | false => rfl
    | true => exact absurd ((ditems_subb_iff _ _).1 hb) h
  have hltb : ditems_ltb s.event_data ev.data = false := by
    simp [ditems_ltb, hsub]
  simp [async_update_sensor, hltb]

/-- Witness for C3: filter `{"a": 1}` against an event with empty data. -/
theorem c3_non_matching_event_is_noop_witness :
    async_update_sensor
        { name := "s", event := "e", state_key := PyVal.pstr "a",
          event_data := [(PyVal.pstr "a", PyVal.pint 1)], state_map := [], unique_id := "u" }
        initial_entity_state
        { data := [], origin_name := "LOCAL", time_fired := PyVal.pobj 0 } =
      (initial_entity_state, UpdateOutcome.noop) :=
  c3_non_matching_event_is_noop
    { name := "s", event := "e", state_key := PyVal.pstr "a",
      event_data := [(PyVal.pstr "a", PyVal.pint 1)], state_map := [], unique_id := "u" }
    initial_entity_state
    { data := [], origin_name := "LOCAL", time_fired := PyVal.pobj 0 }
    (by decide)

/-! ### Helper lemmas about accepted updates -/

/-- When the callback writes a new state, the attributes field was overwritten
with the merged dict of lines 188-192. -/
theorem update_wrote_attributes (s : EventSensor) (st : EntityState) (ev : Event)
    (h : (async_update_sensor s st ev).2 = UpdateOutcome.wrote) :
    (async_update_sensor s st ev).1.attributes = merged_attributes ev := by
  by_cases hg : ditems_ltb s.event_data ev.data
  · cases hk : dlookup s.state_key ev.data with
    | none => simp [async_update_sensor, hg, hk] at h
    | some v => simp [async_update_sensor, hg, hk]
  · simp [async_update_sensor, hg] at h

/-- The outcome of the callback, and — on a write — the new state and
attributes, do not depend on the entity state the callback starts from. -/
theorem update_result_independent_of_entity_state (s : EventSensor) (st1 st2 : EntityState)
    (ev : Event) :
    (async_update_sensor s st1 ev).2 = (async_update_sensor s st2 ev).2 ∧
    ((async_update_sensor s st1 ev).2 = UpdateOutcome.wrote →
      (async_update_sensor s st1 ev).1.state = (async_update_sensor s st2 ev).1.state ∧
      (async_update_sensor s st1 ev).1.attributes = (async_update_sensor s st2 ev).1.attributes) := by
  by_cases hg : ditems_ltb s.event_data ev.data
  · cases hk : dlookup s.state_key ev.data with
    | none => simp [async_update_sensor, hg, hk]
    | some v => simp [async_update_sensor, hg, hk]
  · simp [async_update_sensor, hg]

/-! ### Claim C5: attributes of an accepted event -/

/-- Claim C5 (confirmed): for every accepted event (one for which the callback
writes a new state), the resulting attributes mapping is the event's data
merged with the origin label under key `"origin"` and the fired timestamp
under key `"time_fired"`: those two keys map to the sensor-supplied values and
every other key maps exactly as in the event's data. -/
theorem c5_attributes_are_merged_event_data (s : EventSensor) (st : EntityState) (ev : Event)
    (h : (async_update_sensor s st ev).2 = UpdateOutcome.wrote) (k : PyVal) :
    dlookup k (async_update_sensor s st ev).1.attributes =
      if k = PyVal.pstr "time_fired" then some ev.time_fired
      else if k = PyVal.pstr "origin" then some (PyVal.pstr ev.origin_name)
      else dlookup k ev.data := by
  rw [update_wrote_attributes s st ev h, dlookup_merged_attributes]

/-- Witness for C5: an accepted event with data `{"b": 7}`; the attribute at
key `"b"` is the event-data value. -/
theorem c5_attributes_are_merged_event_data_witness :
    dlookup (PyVal.pstr "b")
        (async_update_sensor
          { name := "s", event := "e", state_key := PyVal.pstr "b",
            event_data := [], state_map := [], unique_id := "u" }
          initial_entity_state
          { data := [(PyVal.pstr "b", PyVal.pint 7)], origin_name := "LOCAL",
            time_fired := PyVal.pobj 0 }).1.attributes =
      some (PyVal.pint 7) := by
  have h := c5_attributes_are_merged_event_data
    { name := "s", event := "e", state_key := PyVal.pstr "b",
      event_data := [], state_map := [], unique_id := "u" }
    initial_entity_state
    { data := [(PyVal.pstr "b", PyVal.pint 7)], origin_name := "LOCAL",
      time_fired := PyVal.pobj 0 }
    (by decide) (PyVal.pstr "b")
  rw [h]
  decide

/-! ### Claim C9: the state-key extraction is unguarded -/

/-- Claim C9 (confirmed): whenever the event data satisfies the callback's
filter guard but does not contain the configured state key, the lookup
`event.data[self._state_key]` on line 183 raises `KeyError` and the entity
state is returned unchanged; freedom from this error requires that every
accepted event's data contain the state key. -/
theorem c9_missing_state_key_raises (s : EventSensor) (st : EntityState) (ev : Event)
    (hsub : ∀ p ∈ s.event_data, p ∈ ev.data)
    (hproper : ¬ (∀ p ∈ ev.data, p ∈ s.event_data))
    (hmiss : dlookup s.state_key ev.data = none) :
    async_update_sensor s st ev = (st, UpdateOutcome.key_error) := by
  have hltb : ditems_ltb s.event_data ev.data = true := (ditems_ltb_iff _ _).2 ⟨hsub, hproper⟩
  simp [async_update_sensor, hltb, hmiss]

/-- Witness for C9: empty filter, event data `{"a": 1}` (a strict superset),
state key `"missing"` absent from the data: `KeyError`, state unchanged. -/
theorem c9_missing_state_key_raises_witness :
    async_update_sensor
        { name := "s", event := "e", state_key := PyVal.pstr "missing",
          event_data := [], state_map := [], unique_id := "u" }
        initial_entity_state
        { data := [(PyVal.pstr "a", PyVal.pint 1)], origin_name := "LOCAL",
          time_fired := PyVal.pobj 0 } =
      (initial_entity_state, UpdateOutcome.key_error) :=
  c9_missing_state_key_raises
    { name := "s", event := "e", state_key := PyVal.pstr "missing",
      event_data := [], state_map := [], unique_id := "u" }
    initial_entity_state
    { data := [(PyVal.pstr "a", PyVal.pint 1)], origin_name := "LOCAL",
      time_fired := PyVal.pobj 0 }
    (by decide) (by decide) (by decide)

/-! ### Claim C10: the added keys override same-named event-data keys -/

/-- Claim C10 (confirmed): for every accepted event whose data itself contains
a key `"origin"` or `"time_fired"`, the merged attributes report the
sensor-supplied origin label and fired timestamp — the dict literal on lines
188-192 assigns those keys after spreading `event.data`, so they override the
event data's same-named entries. -/
theorem c10_origin_time_fired_override (s : EventSensor) (st : EntityState) (ev : Event)
    (h : (async_update_sensor s st ev).2 = UpdateOutcome.wrote)
    (hc : (dlookup (PyVal.pstr "origin") ev.data).isSome ∨
          (dlookup (PyVal.pstr "time_fired") ev.data).isSome) :
    dlookup (PyVal.pstr "origin") (async_update_sensor s st ev).1.attributes =
      some (PyVal.pstr ev.origin_name) ∧
    dlookup (PyVal.pstr "time_fired") (async_update_sensor s st ev).1.attributes =
      some ev.time_fired := by
  rw [update_wrote_attributes s st ev h]
  rw [dlookup_merged_attributes, dlookup_merged_attributes]
  refine ⟨?_, ?_⟩ <;> simp

/-- Witness for C10: event data carries its own `"origin"` and `"time_fired"`
entries; the attributes show the sensor-supplied values instead. -/
theorem c10_origin_time_fired_override_witness :
    dlookup (PyVal.pstr "origin")
        (async_update_sensor
          { name := "s", event := "e", state_key := PyVal.pstr "origin",
            event_data := [], state_map := [], unique_id := "u" }
          initial_entity_state
          { data := [(PyVal.pstr "origin", PyVal.pstr "fake"),
                     (PyVal.pstr "time_fired", PyVal.pobj 9)],
            origin_name := "LOCAL", time_fired := PyVal.pobj 0 }).1.attributes =
      some (PyVal.pstr "LOCAL") := by
  have h := c10_origin_time_fired_override
    { name := "s", event := "e", state_key := PyVal.pstr "origin",
      event_data := [], state_map := [], unique_id := "u" }
    initial_entity_state
    { data := [(PyVal.pstr "origin", PyVal.pstr "fake"),
               (PyVal.pstr "time_fired", PyVal.pobj 9)],
      origin_name := "LOCAL", time_fired := PyVal.pobj 0 }
    (by decide) (Or.inl (by decide))
  exact h.1

/-! ### Claim C6: restore on add, overwrite on accepted events -/

/-- Claim C6 (confirmed): when the entity is added and the host reports a
non-`None` last state, the entity's state is set to the restored state, its
attributes to the restored attributes, and the event listener is registered;
and every subsequently accepted event overwrites state and attributes with
values that depend only on the sensor configuration and the event — the same
values the callback would produce from any other entity state. -/
theorem c6_restore_then_overwrite (s : EventSensor) (st st2 : EntityState) (ls : PyVal)
    (la : Dict PyVal PyVal) (handle : Nat) (ev : Event)
    (hw : (async_update_sensor s (async_added_to_hass st (some (ls, la)) handle) ev).2 =
      UpdateOutcome.wrote) :
    (async_added_to_hass st (some (ls, la)) handle).state = ls ∧
    (async_added_to_hass st (some (ls, la)) handle).attributes = la ∧
    (async_added_to_hass st (some (ls, la)) handle).event_listener = some handle ∧
    (async_update_sensor s st2 ev).2 = UpdateOutcome.wrote ∧
    (async_update_sensor s (async_added_to_hass st (some (ls, la)) handle) ev).1.state =
      (async_update_sensor s st2 ev).1.state ∧
    (async_update_sensor s (async_added_to_hass st (some (ls, la)) handle) ev).1.attributes =
      (async_update_sensor s st2 ev).1.attributes := by
  have hind := update_result_independent_of_entity_state s
    (async_added_to_hass st (some (ls, la)) handle) st2 ev
  refine ⟨rfl, rfl, rfl, ?_, (hind.2 hw).1, (hind.2 hw).2⟩
  rw [← hind.1]
  exact hw

/-- Witness for C6: restore state `"old"` with attributes `{"x": 0}`, then an
accepted event with data `{"a": 1}` overwrites both. -/
theorem c6_restore_then_overwrite_witness :
    (async_added_to_hass initial_entity_state (some (PyVal.pstr "old", [(PyVal.pstr "x", PyVal.pint 0)])) 4).state = PyVal.pstr "old" ∧
    (async_added_to_hass initial_entity_state (some (PyVal.pstr "old", [(PyVal.pstr "x", PyVal.pint 0)])) 4).attributes = [(PyVal.pstr "x", PyVal.pint 0)] ∧
    (async_added_to_hass initial_entity_state (some (PyVal.pstr "old", [(PyVal.pstr "x", PyVal.pint 0)])) 4).event_listener = some 4 ∧
    (async_update_sensor
        { name := "s", event := "e", state_key := PyVal.pstr "a",
          event_data := [], state_map := [], unique_id := "u" }
        { state := PyVal.pint 5, attributes := [], event_listener := some 3 }
        { data := [(PyVal.pstr "a", PyVal.pint 1)], origin_name := "LOCAL",
          time_fired := PyVal.pobj 0 }).2 = UpdateOutcome.wrote ∧
    (async_update_sensor
        { name := "s", event := "e", state_key := PyVal.pstr "a",
          event_data := [], state_map := [], unique_id := "u" }
        (async_added_to_hass initial_entity_state (some (PyVal.pstr "old", [(PyVal.pstr "x", PyVal.pint 0)])) 4)
        { data := [(PyVal.pstr "a", PyVal.pint 1)], origin_name := "LOCAL",
          time_fired := PyVal.pobj 0 }).1.state =
      (async_update_sensor
        { name := "s", event := "e", state_key := PyVal.pstr "a",
          event_data := [], state_map := [], unique_id := "u" }
        { state := PyVal.pint 5, attributes := [], event_listener := some 3 }
        { data := [(PyVal.pstr "a", PyVal.pint 1)], origin_name := "LOCAL",
          time_fired := PyVal.pobj 0 }).1.state ∧
    (async_update_sensor
        { name := "s", event := "e", state_key := PyVal.pstr "a",
          event_data := [], state_map := [], unique_id := "u" }
        (async_added_to_hass initial_entity_state (some (PyVal.pstr "old", [(PyVal.pstr "x", PyVal.pint 0)])) 4)
        { data := [(PyVal.pstr "a", PyVal.pint 1)], origin_name := "LOCAL",
          time_fired := PyVal.pobj 0 }).1.attributes =
      (async_update_sensor
        { name := "s", event := "e", state_key := PyVal.pstr "a",
          event_data := [], state_map := [], unique_id := "u" }
        { state := PyVal.pint 5, attributes := [], event_listener := some 3 }
        { data := [(PyVal.pstr "a", PyVal.pint 1)], origin_name := "LOCAL",
          time_fired := PyVal.pobj 0 }).1.attributes :=
  c6_restore_then_overwrite
    { name := "s", event := "e", state_key := PyVal.pstr "a",
      event_data := [], state_map := [], unique_id := "u" }
    initial_entity_state
    { state := PyVal.pint 5, attributes := [], event_listener := some 3 }
    (PyVal.pstr "old") [(PyVal.pstr "x", PyVal.pint 0)] 4
    { data := [(PyVal.pstr "a", PyVal.pint 1)], origin_name := "LOCAL",
      time_fired := PyVal.pobj 0 }
    (by decide)

/-! ### Claim C8: listener deregistration is idempotent -/

/-- Claim C8 (confirmed): `async_will_remove_from_hass` invokes the stored
deregistration callable exactly when a listener handle is stored, always
leaves the stored handle cleared to `None`, and a second removal call performs
no further deregistration. -/
theorem c8_remove_listener_idempotent (st : EntityState) :
    ((async_will_remove_from_hass st).2 = true ↔ st.event_listener ≠ none) ∧
    (async_will_remove_from_hass st).1.event_listener = none ∧
    async_will_remove_from_hass (async_will_remove_from_hass st).1 =
      ((async_will_remove_from_hass st).1, false) := by
  cases h : st.event_listener with
  | none => simp [async_will_remove_from_hass, h]
  | some n => simp [async_will_remove_from_hass, h]

/-! ### Claim C4: field coercion in `__init__`

`_parse_field` (sensor.py lines 127-135) tries `int(raw_key)`, falls back to
`float(raw_key)` on `ValueError`, and keeps the raw text when both fail.
Python's `int` and `float` string parsers are runtime builtins, not code of
this repository; they are kept abstract as partial parsing functions `pint`
and `pfloat`, so the theorems below hold for the actual builtins. -/

/-- The value `_parse_field` returns: an int, a float (carrier type `F` kept
abstract), or the original text. -/
inductive PField (F : Type) : Type where
  | as_int : Int → PField F
  | as_float : F → PField F
  | as_text : String → PField F
deriving DecidableEq

/-- `_parse_field` (sensor.py lines 127-135): `try: return int(raw_key)`,
`except ValueError: try: return float(raw_key)`,
`except ValueError: return raw_key`. -/
def parse_field {F : Type} (pint : String → Option Int) (pfloat : String → Option F)
    (raw_key : String) : PField F :=
  match pint raw_key with
  | some n => .as_int n
  | none =>
      match pfloat raw_key with
      | some x => .as_float x
      | none => .as_text raw_key

/-- The dict comprehensions in `__init__` (lines 137-144): build a dict by
inserting `(_parse_field(key), _parse_field(value))` for each raw entry. -/
def parse_field_dict {F : Type} [DecidableEq F] (pint : String → Option Int)
    (pfloat : String → Option F) (raw : Dict String String) : Dict (PField F) (PField F) :=
  raw.foldl
    (fun d p => dinsert (parse_field pint pfloat p.1) (parse_field pint pfloat p.2) d) []

/-- Spec side of claim C4, stated in the spec's words: the construction
"coerces each raw string to an int when int-parsing succeeds, otherwise to a
float when float-parsing succeeds, otherwise keeps it as the original text". -/
def spec_coercion {F : Type} (pint : String → Option Int) (pfloat : String → Option F)
    (raw : String) (r : PField F) : Prop :=
  (∀ n, pint raw = some n → r = .as_int n) ∧
  (pint raw = none → ∀ x, pfloat raw = some x → r = .as_float x) ∧
  (pint raw = none → pfloat raw = none → r = .as_text raw)

theorem parse_field_spec_coercion {F : Type} (pint : String → Option Int)
    (pfloat : String → Option F) (raw : String) :
    spec_coercion pint pfloat raw (parse_field pint pfloat raw) := by
  refine ⟨?_, ?_, ?_⟩
  · intro n hn
    simp [parse_field, hn]
  · intro h0 x hx
    simp [parse_field, h0, hx]
  · intro h0 h1
    simp [parse_field, h0, h1]

theorem mem_dreplace {K V : Type} [DecidableEq K] (p : K × V) (k : K) (v : V) (d : Dict K V)
    (h : p ∈ dreplace k v d) : p = (k, v) ∨ p ∈ d := by
  induction d with
  | nil => simp [dreplace] at h
  | cons q t ih =>
      obtain ⟨a, b⟩ := q
      by_cases ha : a = k
      · rw [dreplace, if_pos ha] at h
        rcases List.mem_cons.1 h with h1 | h1
        · exact Or.inl h1
        · rcases ih h1 with h2 | h2
          · exact Or.inl h2
          · exact Or.inr (List.mem_cons_of_mem _ h2)
      · rw [dreplace, if_neg ha] at h
        rcases List.mem_cons.1 h with h1 | h1
        · exact Or.inr (by rw [h1]; exact List.mem_cons_self _ _)
        · rcases ih h1 with h2 | h2
          · exact Or.inl h2
          · exact Or.inr (List.mem_cons_of_mem _ h2)

theorem mem_dinsert {K V : Type} [DecidableEq K] (p : K × V) (k : K) (v : V) (d : Dict K V)
    (h : p ∈ dinsert k v d) : p = (k, v) ∨ p ∈ d := by
  by_cases hs : (dlookup k d).isSome
  · rw [dinsert, if_pos hs] at h
    exact mem_dreplace p k v d h
  · rw [dinsert, if_neg hs] at h
    rcases List.mem_append.1 h with h1 | h1
    · exact Or.inr h1
    · exact Or.inl (by simpa using h1)

theorem mem_parse_field_dict_aux {F : Type} [DecidableEq F] (pint : String → Option Int)
    (pfloat : String → Option F) (raw : Dict String String) :
    ∀ (acc : Dict (PField F) (PField F)) (p : PField F × PField F),
      p ∈ raw.foldl
        (fun d q => dinsert (parse_field pint pfloat q.1) (parse_field pint pfloat q.2) d)
        acc →
      p ∈ acc ∨ ∃ q ∈ raw, p = (parse_field pint pfloat q.1, parse_field pint pfloat q.2) := by
  induction raw with
  | nil =>
      intro acc p h
      exact Or.inl h
  | cons q t ih =>
      intro acc p h
      rw [List.foldl_cons] at h
      rcases ih _ p h with h1 | h1
      · rcases mem_dinsert p _ _ acc h1 with h2 | h2
        · exact Or.inr ⟨q, List.mem_cons_self _ _, h2⟩
        · exact Or.inl h2
      · obtain ⟨r, hr, he⟩ := h1
        exact Or.inr ⟨r, List.mem_cons_of_mem _ hr, he⟩

/-- Claim C4 (confirmed): every key and every value stored by the constructor
in the parsed event-data filter or state-remap table arises from a raw
configuration entry by the `_parse_field` cascade: it is the int when
int-parsing of the raw string succeeds, otherwise the float when
float-parsing succeeds, otherwise the original text. -/
theorem c4_construction_coerces_fields {F : Type} [DecidableEq F] (pint : String → Option Int)
    (pfloat : String → Option F) (raw_event_data raw_state_map : Dict String String)
    (p : PField F × PField F)
    (h : p ∈ parse_field_dict pint pfloat raw_event_data ∨
         p ∈ parse_field_dict pint pfloat raw_state_map) :
    ∃ q, (q ∈ raw_event_data ∨ q ∈ raw_state_map) ∧
      p = (parse_field pint pfloat q.1, parse_field pint pfloat q.2) ∧
      spec_coercion pint pfloat q.1 p.1 ∧ spec_coercion pint pfloat q.2 p.2 := by
  have main : ∀ (raw : Dict String String), p ∈ parse_field_dict pint pfloat raw →
      ∃ q ∈ raw, p = (parse_field pint pfloat q.1, parse_field pint pfloat q.2) := by
    intro raw hm
    rcases mem_parse_field_dict_aux pint pfloat raw [] p hm with h1 | h1
    · simp at h1
    · exact h1
  rcases h with h | h
  · obtain ⟨q, hq, he⟩ := main raw_event_data h
    refine ⟨q, Or.inl hq, he, ?_, ?_⟩
    · rw [show p.1 = parse_field pint pfloat q.1 from by rw [he]]
      exact parse_field_spec_coercion pint pfloat q.1
    · rw [show p.2 = parse_field pint pfloat q.2 from by rw [he]]
      exact parse_field_spec_coercion pint pfloat q.2
  · obtain ⟨q, hq, he⟩ := main raw_state_map h
    refine ⟨q, Or.inr hq, he, ?_, ?_⟩
    · rw [show p.1 = parse_field pint pfloat q.1 from by rw [he]]
      exact parse_field_spec_coercion pint pfloat q.1
    · rw [show p.2 = parse_field pint pfloat q.2 from by rw [he]]
      exact parse_field_spec_coercion pint pfloat q.2

/-- A concrete int parser standing in for Python `int` in the C4 witness. -/
def sample_pint (s : String) : Option Int :=
  if s = "1" then some 1 else none

/-- A concrete float parser standing in for Python `float` in the C4 witness
(the float carrier is its source text). -/
def sample_pfloat (s : String) : Option String :=
  if s = "0.5" then some s else none

/-- Witness for C4: raw filter `{"1": "0.5"}` stores the pair
`(int 1, float "0.5")`, and it is the required coercion of a raw entry. -/
theorem c4_construction_coerces_fields_witness :
    ∃ q, (q ∈ ([("1", "0.5")] : Dict String String) ∨ q ∈ ([("x", "y")] : Dict String String)) ∧
      ((PField.as_int 1 : PField String), (PField.as_float "0.5" : PField String)) =
        (parse_field sample_pint sample_pfloat q.1, parse_field sample_pint sample_pfloat q.2) ∧
      spec_coercion sample_pint sample_pfloat q.1 (PField.as_int 1 : PField String) ∧
      spec_coercion sample_pint sample_pfloat q.2 (PField.as_float "0.5" : PField String) :=
  c4_construction_coerces_fields sample_pint sample_pfloat
    [("1", "0.5")] [("x", "y")]
    ((PField.as_int 1 : PField String), (PField.as_float "0.5" : PField String))
    (Or.inl (by decide))

/-! ### Claim C7: the unique id is a deterministic function of the config -/

/-- Raw configuration data of one sensor (`sensor_data`, i.e.
`config_entry.data`): the host schema requires `name`, `state` and `event`
and allows the two optional dicts, empty when missing. -/
structure SensorData where
  name : String
  event : String
  state : String
  event_data : Dict String String
  state_map : Dict String String
deriving DecidableEq

/-- Modelled from the spec: `make_unique_id` is imported from `.common`
(sensor.py line 20), and `common.py` is not among the sources.  The spec says
the unique identifier is "derived deterministically from configuration to
prevent duplicate registration", and the `unique_id` property docstring says
it is "made with the event name and data filters"; any fixed function of
those configuration fields realises that, so we join the event name with the
raw filter pairs. -/
def make_unique_id (d : SensorData) : String :=
  d.event ++ ":" ++ String.intercalate "," (d.event_data.map (fun p => p.1 ++ "=" ++ p.2))

/-- `EventSensor.__init__` (sensor.py lines 121-149) as a constructor of the
immutable configuration: `parse` abstracts `_parse_field` composed with the
embedding of Python values into `PyVal` (the raw state key on line 125 is
stored unparsed). -/
def mk_event_sensor (parse : String → PyVal) (d : SensorData) : EventSensor :=
  { name := d.name
    event := d.event
    state_key := .pstr d.state
    event_data := d.event_data.foldl (fun acc p => dinsert (parse p.1) (parse p.2) acc) []
    state_map := d.state_map.foldl (fun acc p => dinsert (parse p.1) (parse p.2) acc) []
    unique_id := make_unique_id d }

/-- Claim C7 (confirmed): the sensor's `unique_id` is a deterministic function
of the configuration data: two sensors constructed from equal configuration
data have equal unique ids (whatever the field parser does). -/
theorem c7_unique_id_deterministic (parse1 parse2 : String → PyVal) (d1 d2 : SensorData)
    (h : d1 = d2) :
    (mk_event_sensor parse1 d1).unique_id = (mk_event_sensor parse2 d2).unique_id := by
  subst h
  rfl

/-- Witness for C7: one concrete configuration, two constructions. -/
theorem c7_unique_id_deterministic_witness :
    (mk_event_sensor PyVal.pstr
        { name := "n", event := "e", state :=
          "s", event_data := [("a", "1")], state_map := [] }).unique_id =
    (mk_event_sensor (fun r => PyVal.pint r.length)
        { name := "n", event := "e", state :=
          "s", event_data := [("a", "1")], state_map := [] }).unique_id :=
  c7_unique_id_deterministic PyVal.pstr (fun r => PyVal.pint r.length)
    { name := "n", event := "e", state :=
      "s", event_data := [("a", "1")], state_map := [] }
    { name := "n", event := "e", state :=
      "s", event_data := [("a", "1")], state_map := [] }
    rfl

